import Mathlib

/-!
Shallow embedding of the SmartPlantServer2 backend (auth/session component and
storage messaging component), translated from the repository sources:

* `src/app/main/components/auth/services/auth_service.py` (`AuthServiceST`)
* `src/app/main/components/auth/services/session/session_service.py` (`SessionServiceST`)
* `src/app/main/components/auth/services/user/user_service.py` (`UserServiceST`)
* `src/app/main/components/auth/repositories/session/redis_session_repository.py`
* `src/app/main/components/storage/internal_utils/redis_storage_manager.py`
* `src/app/main/components/storage/repositories/channel_message/channel_message_repository.py`

Modelling conventions: datetimes are epoch seconds (`Int`); Redis hashes keyed by
the session key are an association list keyed by the `(user_id, session_uuid)`
pair that the key string is built from; JWT encode/decode is modelled as the
identity on the decoded payload record (signature and `exp` checking happen in
`decode_jwt_token_with_http_exceptions`, upstream of every function modelled
here, and none of the verified claims concern them); fallible Python code
returns `Except`/`Option`.
-/

namespace SPS

/-- Errors raised by the modelled code paths.  The `AuthHTTPException` subclasses
carry the HTTP status code passed at the raise site (`HTTPStatus.UNAUTHORIZED = 401`,
`HTTPStatus.FORBIDDEN = 403`, `HTTPStatus.CONFLICT = 409`).  `pyTypeError` and
`pyValidationError` stand for the built-in Python `TypeError` and pydantic
`ValidationError`, which are not caught by any modelled frame. -/
inductive AuthError where
  | invalidSession (status : Nat)
  | inactiveSession (status : Nat)
  | tokenExpired (status : Nat)
  | suspiciousActivity (status : Nat)
  | userAlreadyExists (status : Nat)
  | wrongAuthCredentials (status : Nat)
  | authUserUnknown
  | pyTypeError
  | pyValidationError
deriving DecidableEq

/-- Entity `AuthSessionInternal` from `entities/auth_session.py`: the pydantic
schema requires `access_token_uuid` and `refresh_token_uuid` (no defaults) and
has no `access_token`/`refresh_token` fields.  Datetimes are epoch seconds. -/
structure AuthSessionInternal where
  session_uuid : String
  user_id : Nat
  is_active : Bool
  access_token_uuid : String
  refresh_token_uuid : String
  session_name : String
  ip_address : String
  user_agent : String
  created_at : Int
  last_used : Int
  expires_at : Int
deriving DecidableEq

/-- Decoded JWT payload (`entities/auth_token_payload/schemas.py`), restricted to
the fields the session service reads (`token_uuid`, `user_id`, `session_uuid`). -/
structure AuthTokenPayload where
  token_uuid : String
  user_id : Nat
  session_uuid : String
deriving DecidableEq

/-- Entity `AuthTokenPair`: in the source the two fields are encoded JWT strings;
here a token is represented by its decoded payload. -/
structure AuthTokenPair where
  access_token : AuthTokenPayload
  refresh_token : AuthTokenPayload
deriving DecidableEq

/-- Function `create_access_token` of `internal_utils/jwt_tools.py`: encodes a JWT
whose payload holds the given user id, session uuid and token uuid. -/
def create_access_token (user_id : Nat) (session_uuid token_uuid : String) : AuthTokenPayload :=
  ⟨token_uuid, user_id, session_uuid⟩

/-- Function `create_refresh_token` of `internal_utils/jwt_tools.py`. -/
def create_refresh_token (user_id : Nat) (session_uuid token_uuid : String) : AuthTokenPayload :=
  ⟨token_uuid, user_id, session_uuid⟩

/-- The Redis database holding sessions: one hash per session, keyed by the
string `AUTH_USER_SESSION_REDIS_KEY.format(user_id, session_uuid)`; modelled as
an association list keyed by the `(user_id, session_uuid)` pair. -/
abbrev SessionStore := List ((Nat × String) × AuthSessionInternal)

/-- Lookup of the hash stored at a session key (`hgetall`, parsed back into the
schema).  `none` models a key that does not exist. -/
def storeLookup : SessionStore → Nat × String → Option AuthSessionInternal
  | [], _ => none
  | e :: rest, k => if e.1 = k then some e.2 else storeLookup rest k

/-- Overwrite (or create) the hash stored at a session key, as `hset` with a full
field mapping does. -/
def storeInsert : SessionStore → Nat × String → AuthSessionInternal → SessionStore
  | [], k, s => [(k, s)]
  | e :: rest, k, s => if e.1 = k then (k, s) :: rest else e :: storeInsert rest k s

/-- Result of `RedisSessionRepository.__save_session`: the updated store plus the
arguments of the `expire` call it issues. -/
structure SaveSessionResult where
  store : SessionStore
  expire_key : Nat × String
  expire_seconds : Int
deriving DecidableEq

/-- Method `RedisSessionRepository.__save_session` (lines 33-38): `hset` the full
record at the session key, then `redis.expire(session_key, round(session.expires_at.timestamp()))`.
`expire` takes a relative time-to-live in seconds; the argument passed is the
absolute epoch value of `expires_at` (here `expires_at` itself, datetimes being
epoch seconds, so that `round(-.timestamp())` is the identity). -/
def save_session (st : SessionStore) (s : AuthSessionInternal) : SaveSessionResult :=
  ⟨storeInsert st (s.user_id, s.session_uuid) s, (s.user_id, s.session_uuid), s.expires_at⟩

/-- Method `RedisSessionRepository.update_session`: delegates to `__save_session`. -/
def update_session (st : SessionStore) (s : AuthSessionInternal) : SaveSessionResult :=
  save_session st s

/-- Method `RedisSessionRepository.__get_session` (lines 55-62).  For a missing
key `hgetall` returns an empty dict, not `None`, so the `is None` guard never
fires and `AuthSessionInternal.model_validate {}` raises a pydantic
`ValidationError` (the required fields are absent). -/
def repo_get_session (st : SessionStore) (user_id : Nat) (session_uuid : String) :
    Except AuthError AuthSessionInternal :=
  match storeLookup st (user_id, session_uuid) with
  | none => .error .pyValidationError
  | some s => .ok s

/-- Method `RedisSessionRepository.__delete_session` with `soft := True`
(lines 40-53): if the key does not exist return `False`; otherwise `hset` the
single field `is_active` to `"false"` (the other fields are untouched) and
return `True`. -/
def delete_session_soft (st : SessionStore) (user_id : Nat) (session_uuid : String) :
    SessionStore × Bool :=
  match storeLookup st (user_id, session_uuid) with
  | none => (st, false)
  | some s => (storeInsert st (user_id, session_uuid) { s with is_active := false }, true)

/-- Method `RedisSessionRepository.revoke_session_by_id` (line 118-119). -/
def revoke_session_by_id (st : SessionStore) (user_id : Nat) (session_uuid : String) :
    SessionStore × Bool :=
  delete_session_soft st user_id session_uuid

/-- Method `SessionServiceST.get_session` (lines 16-23): fetch the session (a
missing key surfaces as the repository-level `ValidationError`, see
`repo_get_session`; the `is None` branch raising `InvalidSessionHTTPException`
is therefore never taken), then raise `InactiveSessionHTTPException(401)` when
`is_active` is false. -/
def service_get_session (st : SessionStore) (user_id : Nat) (session_uuid : String) :
    Except AuthError AuthSessionInternal :=
  match repo_get_session st user_id session_uuid with
  | .error e => .error e
  | .ok s => if s.is_active = false then .error (.inactiveSession 401) else .ok s

/-- Method `SessionServiceST.validate_access_token` (lines 25-34): decode, fetch
the session, then raise `TokenExpiredHTTPException(401)` when the stored
`access_token_uuid` differs from the token's `token_uuid`. -/
def validate_access_token (st : SessionStore) (p : AuthTokenPayload) :
    Except AuthError AuthSessionInternal :=
  match service_get_session st p.user_id p.session_uuid with
  | .error e => .error e
  | .ok s => if s.access_token_uuid ≠ p.token_uuid then .error (.tokenExpired 401) else .ok s

/-- Method `SessionServiceST.validate_refresh_token` (lines 36-45). -/
def validate_refresh_token (st : SessionStore) (p : AuthTokenPayload) :
    Except AuthError AuthSessionInternal :=
  match service_get_session st p.user_id p.session_uuid with
  | .error e => .error e
  | .ok s => if s.refresh_token_uuid ≠ p.token_uuid then .error (.tokenExpired 401) else .ok s

/-- Method `SessionServiceST.revoke_session` (lines 47-50): raise
`InvalidSessionHTTPException(401)` when the repository reports failure. -/
def service_revoke_session (st : SessionStore) (user_id : Nat) (session_uuid : String) :
    SessionStore × Except AuthError Unit :=
  let r := revoke_session_by_id st user_id session_uuid
  if r.2 = false then (r.1, .error (.invalidSession 401)) else (r.1, .ok ())

/-- Parameter count of `RedisSessionRepository.create_session` (lines 72-78):
`(user_id, ip_address, user_agent, session_name)`. -/
def repo_create_session_param_count : Nat := 4

/-- Argument count of the call in `SessionServiceST.create_session` (lines 52-64):
`(user_id, ip_address, user_agent, session_name, access_token_uuid, refresh_token_uuid)`. -/
def service_create_session_arg_count : Nat := 6

/-- Method `SessionServiceST.create_session`.  The call passes
`service_create_session_arg_count` positional arguments to a method declared
with `repo_create_session_param_count` parameters, so Python raises `TypeError`
before the body runs.  (Were the arity to match, the repository body would
still raise: it constructs `AuthSessionInternal(access_token=..., refresh_token=...)`
while the schema requires `access_token_uuid` and `refresh_token_uuid`, so
pydantic validation fails.) -/
def session_service_create_session (_st : SessionStore) (_user_id : Nat)
    (_ip _ua _session_name _access_token_uuid _refresh_token_uuid : String) :
    Except AuthError AuthSessionInternal :=
  if service_create_session_arg_count ≠ repo_create_session_param_count then
    .error .pyTypeError
  else
    .error .pyValidationError

/-- Entity `UserInternal` from `entities/user/schemas.py` (fields used by the
verified claims; `password` holds the stored hash). -/
structure UserInternal where
  id : Nat
  username : String
  password : String
deriving DecidableEq

/-- The relational `users` table (`UserModel`, `entities/user/model.py`):
`username` carries a UNIQUE constraint and `id` is the auto-increment primary
key, modelled by `next_id`. -/
structure UsersDb where
  rows : List UserInternal
  next_id : Nat
deriving DecidableEq

/-- UTF-8 encoding of one Unicode code point (model of Python `str.encode("utf-8")`
for a single character). -/
def utf8_encode_char (c : Nat) : List Nat :=
  if c < 128 then [c]
  else if c < 2048 then [192 + c / 64, 128 + c % 64]
  else if c < 65536 then [224 + c / 4096, 128 + c / 64 % 64, 128 + c % 64]
  else [240 + c / 262144, 128 + c / 4096 % 64, 128 + c / 64 % 64, 128 + c % 64]

/-- Model of `password.encode(encoding="utf-8")`. -/
def utf8_encode (s : String) : List Nat :=
  s.data.flatMap (fun ch => utf8_encode_char ch.toNat)

/-- One lowercase hexadecimal digit (used by `hexdigest`). -/
def hex_digit_char (d : Nat) : Char :=
  Char.ofNat (if d < 10 then 48 + d else 87 + d)

/-- Model of `hashlib`'s `.hexdigest()`: two lowercase hex digits per byte. -/
def hexdigest (bytes : List Nat) : String :=
  ⟨bytes.flatMap (fun b => [hex_digit_char (b / 16 % 16), hex_digit_char (b % 16)])⟩

/-- Method `UserServiceST.hash_password` (lines 12-13):
`hashlib.sha256(password.encode("utf-8")).hexdigest()`.  The SHA-256 compression
itself is the parameter `sha256` (a fixed pure function from the byte string to
the 32-byte digest); everything around it is concrete.  No user-specific input
(salt) enters the computation. -/
def hash_password (sha256 : List Nat → List Nat) (password : String) : String :=
  hexdigest (sha256 (utf8_encode password))

/-- Method `BaseRepository.create` specialised to `UserRepositoryST`: INSERT into
`users`; the UNIQUE constraint on `username` makes the insert fail with
`IntegrityError`, which `async_session_wrappers` maps to `UniqueConstraintFailed`
(`db/exceptions.py`).  `none` models that exception; on success the row is
committed with the auto-increment id. -/
def user_repository_create (db : UsersDb) (u : UserInternal) : Option UsersDb :=
  if db.rows.any (fun r => r.username == u.username) then none
  else some ⟨db.rows ++ [u], db.next_id + 1⟩

/-- Method `UserServiceST.create_user` (lines 15-18): build
`UserModel(username=username, password=self.hash_password(password))` and insert it. -/
def create_user (sha256 : List Nat → List Nat) (db : UsersDb) (username password : String) :
    Option (UsersDb × UserInternal) :=
  let user : UserInternal := ⟨db.next_id, username, hash_password sha256 password⟩
  match user_repository_create db user with
  | none => none
  | some db' => some (db', user)

/-- Method `BaseRepository.get_one_by_strict` with filters
`username=..., password=...`: SELECT the first row matching both equalities,
raising `UserModel.DoesNotExist` (`none`) when there is no match. -/
def get_one_by_username_password (db : UsersDb) (username password : String) :
    Option UserInternal :=
  db.rows.find? (fun r => r.username == username && r.password == password)

/-- Method `UserServiceST.get_by_auth_credentials` (lines 28-31): hash the raw
password and look the user up by `username` and `password` hash. -/
def get_by_auth_credentials (sha256 : List Nat → List Nat) (db : UsersDb)
    (username password_raw : String) : Option UserInternal :=
  get_one_by_username_password db username (hash_password sha256 password_raw)

/-- Method `UserServiceST.get_user_by_id`: `get_by_pk_strict`. -/
def get_user_by_id (db : UsersDb) (user_id : Nat) : Option UserInternal :=
  db.rows.find? (fun r => r.id == user_id)

/-- Entity `AuthInfo`. -/
structure AuthInfo where
  user : UserInternal
  session : AuthSessionInternal
deriving DecidableEq

/-- Method `AuthServiceST.suspicious_activity_check` (lines 44-45):
`session.ip_address == current_client_ip and session.user_agent == current_client_user_agent`. -/
def suspicious_activity_check (session : AuthSessionInternal)
    (current_client_ip current_client_user_agent : String) : Bool :=
  session.ip_address == current_client_ip && session.user_agent == current_client_user_agent

/-- In `AuthServiceST.refresh` (line 98) the `async` method
`suspicious_activity_check` is called without `await`:
`if not self.suspicious_activity_check(session, ...)`.  The call returns a
coroutine object, and the truthiness of a coroutine object is always `True`,
whatever the comparison inside the coroutine would have produced. -/
def unawaited_coroutine_truthiness : Bool := true

/-- The branch condition `not self.suspicious_activity_check(session, current_client_ip,
current_client_user_agent)` as evaluated at `AuthServiceST.refresh` line 98: the
arguments build the coroutine object, and `not` is applied to the object's
truthiness, never to the comparison the coroutine would compute. -/
def refresh_suspicious_branch_taken (_session : AuthSessionInternal)
    (_current_client_ip _current_client_user_agent : String) : Bool :=
  !unawaited_coroutine_truthiness

/-- Result of `AuthServiceST.refresh`: the session store after the call and
either the new token pair or the exception raised. -/
structure RefreshResult where
  store : SessionStore
  outcome : Except AuthError AuthTokenPair

/-- Method `AuthServiceST.refresh` (lines 93-115): validate the refresh token,
fetch the user, evaluate `not self.suspicious_activity_check(...)` — which by
`unawaited_coroutine_truthiness` is always false, so the
`_handle_suspicious_activity` / `SuspiciousActivityHTTPException(403)` branch is
dead code — then mint fresh token uuids (the `new_access_token_uuid` /
`new_refresh_token_uuid` parameters stand for the two `uuid4()` draws), write
them into the session, `update_session`, and return the new pair. -/
def auth_refresh (db : UsersDb) (st : SessionStore) (refresh_payload : AuthTokenPayload)
    (current_client_ip current_client_user_agent : String)
    (new_access_token_uuid new_refresh_token_uuid : String) : RefreshResult :=
  match validate_refresh_token st refresh_payload with
  | .error e => ⟨st, .error e⟩
  | .ok session =>
    match get_user_by_id db session.user_id with
    | none => ⟨st, .error .authUserUnknown⟩
    | some user =>
      if refresh_suspicious_branch_taken session current_client_ip current_client_user_agent then
        let r := service_revoke_session st user.id session.session_uuid
        ⟨r.1, .error (.suspiciousActivity 403)⟩
      else
        let new_access_token :=
          create_access_token user.id session.session_uuid new_access_token_uuid
        let new_refresh_token :=
          create_refresh_token user.id session.session_uuid new_refresh_token_uuid
        let session' := { session with
          access_token_uuid := new_access_token_uuid
          refresh_token_uuid := new_refresh_token_uuid }
        let saved := update_session st session'
        ⟨saved.store, .ok ⟨new_access_token, new_refresh_token⟩⟩

/-- Method `AuthServiceST._create_session` (lines 59-86): draw two uuids (the
`access_token_uuid` / `refresh_token_uuid` parameters), call
`SessionServiceST.create_session` with them, then build the tokens from the very
same uuids.  The session-service call raises (see
`session_service_create_session`), so the continuation never runs. -/
def auth_create_session (st : SessionStore) (user : UserInternal)
    (ip_address user_agent session_name access_token_uuid refresh_token_uuid : String) :
    SessionStore × Except AuthError (AuthInfo × AuthTokenPair) :=
  match session_service_create_session st user.id ip_address user_agent session_name
      access_token_uuid refresh_token_uuid with
  | .error e => (st, .error e)
  | .ok session =>
    let access_token := create_access_token user.id session.session_uuid access_token_uuid
    let refresh_token := create_refresh_token user.id session.session_uuid refresh_token_uuid
    (storeInsert st (session.user_id, session.session_uuid) session,
      .ok (⟨user, session⟩, ⟨access_token, refresh_token⟩))

/-- Method `AuthServiceST._register_user` + `register` (lines 47-51 and 117-127):
create the user, mapping `UniqueConstraintFailed` to
`UserAlreadyExists(status_code=HTTPStatus.CONFLICT)` (409), then create the
session for the fresh user.  The triple returned is the state of the users
table, the state of the session store, and the outcome. -/
def auth_register (sha256 : List Nat → List Nat) (db : UsersDb) (st : SessionStore)
    (username password ip_address user_agent session_name : String)
    (access_token_uuid refresh_token_uuid : String) :
    UsersDb × SessionStore × Except AuthError (AuthInfo × AuthTokenPair) :=
  match create_user sha256 db username password with
  | none => (db, st, .error (.userAlreadyExists 409))
  | some (db', user) =>
    let r := auth_create_session st user ip_address user_agent session_name
      access_token_uuid refresh_token_uuid
    (db', r.1, r.2)

/-- One decimal digit character (model of the digits produced by Python `str(int)`). -/
def dec_digit_char (d : Nat) : Char :=
  Char.ofNat (48 + d)

/-- Decimal digits of `n`, most significant first (empty for `0`), computed with
structural recursion on a fuel bound so that it reduces inside the kernel; any
fuel of at least `n` gives the same digits. -/
def dec_digits_fuel : Nat → Nat → List Char
  | 0, _ => []
  | fuel + 1, n =>
    if n = 0 then [] else dec_digits_fuel fuel (n / 10) ++ [dec_digit_char (n % 10)]

/-- Decimal digits of a positive number, most significant first. -/
def dec_digits (n : Nat) : List Char :=
  dec_digits_fuel n n

/-- Model of Python `str(user_id)` for a non-negative integer. -/
def nat_str (n : Nat) : String :=
  if n = 0 then "0" else ⟨dec_digits n⟩

/-- Method `RedisCachedStorageManager._get_user_storage_key`: `f"storage:{user_id}"`. -/
def get_user_storage_key (user_id : Nat) : String :=
  "storage:" ++ nat_str user_id

/-- Method `RedisCachedStorageManager._get_channel_key`. -/
def get_channel_key (user_id : Nat) (channel_name : String) : String :=
  get_user_storage_key user_id ++ ":channel:" ++ channel_name

/-- Method `RedisCachedStorageManager._get_channel_stream_key`. -/
def get_channel_stream_key (user_id : Nat) (channel_name : String) : String :=
  get_channel_key user_id channel_name ++ ":__stream__"

/-- Method `RedisCachedStorageManager._get_direct_key`:
`f"storage:{user_id}" + f":direct:{target_name}"`. -/
def get_direct_key (user_id : Nat) (target_name : String) : String :=
  get_user_storage_key user_id ++ ":direct:" ++ target_name

/-- Method `RedisCachedStorageManager._get_response_direct_key`:
`self._get_direct_key(user_id, sender_name) + f":response:{response_to_message_uuid}"`. -/
def get_response_direct_key (user_id : Nat) (sender_name response_to_message_uuid : String) :
    String :=
  get_direct_key user_id sender_name ++ ":response:" ++ response_to_message_uuid

/-- Entity `StorageDirectMessage` (`models/direct_message/schema.py` together with
`models/storage_message.py`), restricted to the fields the delivery logic reads.
`StorageDirectRequest` and `StorageDirectResponse` only pin the `intent` field,
which the key computations never read, so one record type serves for both. -/
structure StorageDirectMessage where
  user_id : Nat
  sender_name : String
  target_name : String
  uuid : String
  data : String
deriving DecidableEq

/-- The Redis database used for direct messages: one list per key, modelled as an
association list from the key string to the list contents (oldest first).
`model_dump_json` / `model_validate_json` round-trip, so list elements are the
messages themselves. -/
abbrev RedisListStore := List (String × List StorageDirectMessage)

/-- Contents of the list at a key; a missing key behaves as the empty list. -/
def list_at : RedisListStore → String → List StorageDirectMessage
  | [], _ => []
  | e :: rest, k => if e.1 = k then e.2 else list_at rest k

/-- Redis `RPUSH`: append one element at the right end of the list at `k`. -/
def rpush : RedisListStore → String → StorageDirectMessage → RedisListStore
  | [], k, v => [(k, [v])]
  | e :: rest, k, v => if e.1 = k then (e.1, e.2 ++ [v]) :: rest else e :: rpush rest k v

/-- Redis `BLPOP` restricted to one key, at the moment the list is inspected:
the head of the list, or `none` when the key stays empty until the timeout. -/
def blpop_head (st : RedisListStore) (k : String) : Option StorageDirectMessage :=
  (list_at st k).head?

/-- Method `RedisCachedStorageManager._send_direct_response` (lines 70-74): push
the response onto the list at
`_get_response_direct_key(response.user_id, response.sender_name, response_to_message_uuid)`. -/
def send_direct_response (st : RedisListStore) (response : StorageDirectMessage)
    (response_to_message_uuid : String) : RedisListStore :=
  rpush st (get_response_direct_key response.user_id response.sender_name
    response_to_message_uuid) response

/-- Method `RedisCachedStorageManager._wait_for_direct_response` (lines 47-54):
`blpop` on `_get_response_direct_key(request.user_id, request.target_name, request.uuid)`. -/
def wait_for_direct_response (st : RedisListStore) (request : StorageDirectMessage) :
    Option StorageDirectMessage :=
  blpop_head st (get_response_direct_key request.user_id request.target_name request.uuid)

/-- Redis `LRANGE key 0 stop`: elements from index `0` to index `stop` inclusive,
a negative `stop` counting from the end of the list. -/
def lrange_from_zero (l : List StorageDirectMessage) (stop : Int) : List StorageDirectMessage :=
  l.take (((if stop < 0 then (l.length : Int) + stop else stop) + 1).toNat)

/-- Method `RedisCachedStorageManager._listen_direct` (lines 76-86).  The
`pending` parameter is the list at `_get_direct_key(user_id, device_name)` at the
moment `blpop` fires (`[]` when nothing arrives before the timeout).  On a hit:
pop the first element, read `lrange(key, 0, limit)` from the remaining list,
delete the whole key, and return the popped element followed by the read ones.
The second component records whether `redis.delete(key)` was called. -/
def listen_direct (pending : List StorageDirectMessage) (limit : Int) :
    List StorageDirectMessage × Bool :=
  match pending with
  | [] => ([], false)
  | first :: rest => (first :: lrange_from_zero rest limit, true)

/-- Entity `StorageChannelMessage` (`entities/channel_message/schemas.py`),
restricted to the fields the delivery logic reads; `id` is the database primary
key. -/
structure StorageChannelMessage where
  id : Int
  user_id : Nat
  sender_name : String
  target_name : String
  channel_name : String
  data : String
deriving DecidableEq

/-- The `storage_channel_messages` table, with `next_id` the auto-increment
primary-key counter. -/
structure ChannelDb where
  rows : List StorageChannelMessage
  next_id : Int
deriving DecidableEq

/-- A channel's Redis stream: entries ordered oldest first, each carrying the
millisecond part of its entry id (the sequence part is always `0`, every entry
being added with id `f"{message.id}-0"`). -/
abbrev ChannelStream := List (Int × StorageChannelMessage)

/-- Arguments of the `redis.xadd` call issued by `_write_to_channel`. -/
structure XAddCall where
  key : String
  entry_id_ms : Int
  entry_id_seq : Nat
  maxlen : Nat
  approximate : Bool
deriving DecidableEq

/-- Method `RedisCachedStorageManager._write_to_channel` (lines 88-106): build
`StorageChannelMessageModel(**message_data)`, INSERT it (the database assigns the
auto-increment primary key), then `xadd` the serialized message to the channel's
stream with the explicit entry id `f"{message.id}-0"`,
`maxlen=project_settings.STORAGE_CHANNEL_CACHE_SIZE` (the `cache_size`
parameter) and `approximate=True`, and return the persisted message. -/
def write_to_channel (db : ChannelDb) (cache_size : Nat) (user_id : Nat)
    (sender_name target_name channel_name data : String) :
    ChannelDb × XAddCall × StorageChannelMessage :=
  let message : StorageChannelMessage :=
    ⟨db.next_id, user_id, sender_name, target_name, channel_name, data⟩
  let db' : ChannelDb := ⟨db.rows ++ [message], db.next_id + 1⟩
  (db', ⟨get_channel_stream_key user_id channel_name, message.id, 0, cache_size, true⟩, message)

/-- Errors raised by the Redis client itself. `noSuchKey` is the
`ResponseError("no such key")` that `redis.xinfo_stream` raises when the key
does not exist; no frame of `_listen_channel` catches it. -/
inductive RedisError where
  | noSuchKey
deriving DecidableEq

/-- Entry-bounds extraction of `RedisCachedStorageManager._get_redis_stream_info`
(lines 139-149), applied to the `xinfo_stream` reply of an *existing* stream
key: `(-1, -1)` when the reply carries no entries (`first-entry`/`last-entry`
empty or `None` — a state this program never reaches, since a stream key only
comes into being through `_write_to_channel`'s `xadd` and entries are never
deleted), otherwise the millisecond parts of the first and last entry ids.
The `xinfo_stream` call itself raises on a missing key; that path is modelled
by `get_redis_stream_info_call`. -/
def get_redis_stream_info (stream : ChannelStream) : Int × Int :=
  match stream.head?, stream.getLast? with
  | some first_entry, some last_entry => (first_entry.1, last_entry.1)
  | _, _ => (-1, -1)

/-- Method `RedisCachedStorageManager._get_redis_stream_info` (lines 135-149)
as a whole, `xinfo_stream` call included.  The channel's stream key state is
`none` when the key does not exist — `xinfo_stream` then raises
`ResponseError("no such key")` — and `some entries` when it exists. -/
def get_redis_stream_info_call (stream? : Option ChannelStream) :
    Except RedisError (Int × Int) :=
  match stream? with
  | none => .error .noSuchKey
  | some stream => .ok (get_redis_stream_info stream)

/-- Method `RedisCachedStorageManager._fetch_messages_from_redis` (lines 126-133):
`xrange(key, min=f"{offset_id + 1}-0", max="+", count=limit)` — the entries whose
id is at least `offset_id + 1`, at most `limit` of them, deserialized. -/
def fetch_messages_from_redis (stream : ChannelStream) (offset_id : Int) (limit : Nat) :
    List StorageChannelMessage :=
  ((stream.filter (fun e => offset_id + 1 ≤ e.1)).map (fun e => e.2)).take limit

/-- Method `StorageChannelMessageRepositoryST.get_messages` /
`_fetch_messages` (`channel_message_repository.py` lines 16-46): SELECT the rows
with the given `user_id` and `channel_name` and primary key strictly above
`offset_id`, ordered by `id`, limited to `limit` rows. -/
def get_messages (db : ChannelDb) (user_id : Nat) (channel_name : String)
    (offset_id : Int) (limit : Nat) : List StorageChannelMessage :=
  ((db.rows.filter (fun m =>
      m.user_id == user_id && m.channel_name == channel_name && offset_id < m.id)).insertionSort
    (fun a b => a.id ≤ b.id)).take limit

/-- Outcome of `_listen_channel`: either block on `xread({key: "$"})` waiting for
entries that arrive after the call, or return messages fetched from the
database, or return messages fetched from the Redis stream. -/
inductive ListenOutcome where
  | waitForNew
  | fromDb (msgs : List StorageChannelMessage)
  | fromRedis (msgs : List StorageChannelMessage)
deriving DecidableEq

/-- Method `RedisCachedStorageManager._listen_channel` (lines 156-172): its
first line awaits `_get_redis_stream_info`, so on a channel whose stream key
does not exist (`stream? = none`) the `ResponseError("no such key")` from
`xinfo_stream` propagates out of the call before any branch runs.  On an
existing stream: when the reply carries no entries, block for new messages
(dead code here, see `get_redis_stream_info`); when `offset_id` is below the
oldest cached id, fetch from the database; when the newest id is at or below
`offset_id`, block for new messages; otherwise fetch from the same, existing
Redis stream. -/
def listen_channel (db : ChannelDb) (stream? : Option ChannelStream) (user_id : Nat)
    (channel_name : String) (offset_id : Int) (limit : Nat) :
    Except RedisError ListenOutcome :=
  match stream? with
  | none => .error .noSuchKey
  | some stream =>
    let info := get_redis_stream_info stream
    let bottom_message_id := info.1
    let top_message_id := info.2
    if top_message_id = -1 then .ok .waitForNew
    else if offset_id < bottom_message_id then
      .ok (.fromDb (get_messages db user_id channel_name offset_id limit))
    else if top_message_id ≤ offset_id then .ok .waitForNew
    else .ok (.fromRedis (fetch_messages_from_redis stream offset_id limit))

/-- Decimal value of a digit string (left inverse of `dec_digits`, used to prove
that `nat_str` is injective). -/
def dec_val (l : List Char) : Nat :=
  l.foldl (fun a c => 10 * a + (c.toNat - 48)) 0

/-- A string containing no `:` separator.  The key strings built by
`RedisCachedStorageManager` concatenate their variable parts with `:`-delimited
literals, so keys built from colon-free parts determine those parts uniquely,
while colon-containing parts can make distinct triples collide. -/
def colon_free (s : String) : Prop :=
  ∀ c ∈ s.data, c ≠ ':'

instance (s : String) : Decidable (colon_free s) :=
  decidable_of_iff (∀ c ∈ s.data, c ≠ ':') Iff.rfl

instance : IsTotal StorageChannelMessage (fun a b => a.id ≤ b.id) :=
  ⟨fun a b => Int.le_total a.id b.id⟩

instance : IsTrans StorageChannelMessage (fun a b => a.id ≤ b.id) :=
  ⟨fun _ _ _ h₁ h₂ => le_trans h₁ h₂⟩

/-! Helper lemmas about the store primitives. -/

theorem storeLookup_storeInsert_self (st : SessionStore) (k : Nat × String)
    (s : AuthSessionInternal) : storeLookup (storeInsert st k s) k = some s := by
  induction st with
  | nil => simp [storeInsert, storeLookup]
  | cons e rest ih =>
    by_cases h : e.1 = k
    · simp [storeInsert, h, storeLookup]
    · simp [storeInsert, h, storeLookup, ih]

theorem get_user_by_id_id (db : UsersDb) (user_id : Nat) (u : UserInternal)
    (h : get_user_by_id db user_id = some u) : u.id = user_id := by
  have hp := List.find?_some h
  simpa using hp

theorem getLast?_cons_append_singleton {α : Type} (e : α) (l : List α) (x : α) :
    (e :: (l ++ [x])).getLast? = some x := by
  induction l generalizing e with
  | nil => rfl
  | cons f t ih =>
    rw [show e :: ((f :: t) ++ [x]) = e :: f :: (t ++ [x]) from rfl]
    rw [List.getLast?_cons_cons]
    exact ih f

theorem get_redis_stream_info_append_last (stream : ChannelStream)
    (p : Int × StorageChannelMessage) :
    (get_redis_stream_info (stream ++ [p])).2 = p.1 := by
  cases stream with
  | nil => rfl
  | cons e rest =>
    unfold get_redis_stream_info
    rw [List.cons_append, getLast?_cons_append_singleton]
    rfl

theorem validate_access_token_ok (st : SessionStore) (p : AuthTokenPayload)
    (srec : AuthSessionInternal) (h : storeLookup st (p.user_id, p.session_uuid) = some srec)
    (ha : srec.is_active = true) (hm : srec.access_token_uuid = p.token_uuid) :
    validate_access_token st p = .ok srec := by
  unfold validate_access_token service_get_session repo_get_session
  rw [h]
  simp [ha, hm]

theorem validate_access_token_expired (st : SessionStore) (p : AuthTokenPayload)
    (srec : AuthSessionInternal) (h : storeLookup st (p.user_id, p.session_uuid) = some srec)
    (ha : srec.is_active = true) (hm : srec.access_token_uuid ≠ p.token_uuid) :
    validate_access_token st p = .error (.tokenExpired 401) := by
  unfold validate_access_token service_get_session repo_get_session
  rw [h]
  simp [ha, hm]

theorem validate_refresh_token_ok (st : SessionStore) (p : AuthTokenPayload)
    (srec : AuthSessionInternal) (h : storeLookup st (p.user_id, p.session_uuid) = some srec)
    (ha : srec.is_active = true) (hm : srec.refresh_token_uuid = p.token_uuid) :
    validate_refresh_token st p = .ok srec := by
  unfold validate_refresh_token service_get_session repo_get_session
  rw [h]
  simp [ha, hm]

/-- C1: with a session whose stored client data differs from the current client
(IP `1.1.1.1` stored, `2.2.2.2` current), `suspicious_activity_check` computes
`false`, yet `AuthServiceST.refresh` completes successfully: it returns the new
token pair and leaves the session active (not revoked), never raising
`SuspiciousActivityHTTPException`.  The `async` check is called without `await`
at line 98, so the branch tests the truthiness of a coroutine object — always
true — and the suspicious-activity handling is dead code. -/
theorem C1_refresh_suspicious_branch_dead :
    suspicious_activity_check
        ⟨"s1", 1, true, "a0", "r0", "sess", "1.1.1.1", "agent", 0, 0, 9999⟩
        "2.2.2.2" "agent" = false ∧
    (auth_refresh ⟨[⟨1, "alice", "h"⟩], 2⟩
        [((1, "s1"), ⟨"s1", 1, true, "a0", "r0", "sess", "1.1.1.1", "agent", 0, 0, 9999⟩)]
        ⟨"r0", 1, "s1"⟩ "2.2.2.2" "agent" "a1" "r1").outcome =
      .ok ⟨⟨"a1", 1, "s1"⟩, ⟨"r1", 1, "s1"⟩⟩ ∧
    storeLookup (auth_refresh ⟨[⟨1, "alice", "h"⟩], 2⟩
        [((1, "s1"), ⟨"s1", 1, true, "a0", "r0", "sess", "1.1.1.1", "agent", 0, 0, 9999⟩)]
        ⟨"r0", 1, "s1"⟩ "2.2.2.2" "agent" "a1" "r1").store (1, "s1") =
      some ⟨"s1", 1, true, "a1", "r1", "sess", "1.1.1.1", "agent", 0, 0, 9999⟩ :=
  ⟨rfl, rfl, rfl⟩

/-- C3 counterexample: session creation can never store the freshly issued token
identifiers, at any concrete input: `SessionServiceST.create_session` passes six
positional arguments to `RedisSessionRepository.create_session`, which is
declared with four parameters, so the call raises `TypeError`; consequently
`AuthServiceST._create_session` and the whole `register` path error out instead
of returning an `(auth_info, token_pair)` whose uuids the session stores. -/
theorem C3_counterexample_create_session_crashes :
    session_service_create_session [] 1 "ip" "ua" "main" "a0" "r0" = .error .pyTypeError ∧
    (auth_create_session [] ⟨1, "alice", "h"⟩ "ip" "ua" "main" "a0" "r0").2 =
      .error .pyTypeError ∧
    (auth_register (fun b => b) ⟨[], 1⟩ [] "alice" "pw" "ip" "ua" "main" "a0" "r0").2.2 =
      .error .pyTypeError :=
  ⟨rfl, rfl, rfl⟩

/-- C3 (amended): token rotation invalidates the old pair on the refresh path.
After every successful `AuthServiceST.refresh` the stored session's
`access_token_uuid`/`refresh_token_uuid` equal the uuids embedded in the
returned pair; validating the new access token succeeds, and validating any
access token carrying a token uuid other than the fresh one (in particular
every access token issued for the session before the refresh) fails with
`TokenExpiredHTTPException` (401).  `create_session` cannot establish the
invariant because the session-service/repository call always raises (see the
counterexample); the final conjunct records that. -/
theorem C3_amended_refresh_rotates_and_invalidates
    (db : UsersDb) (st : SessionStore) (tok : AuthTokenPayload) (s : AuthSessionInternal)
    (user : UserInternal) (ip ua na nr : String)
    (hs : storeLookup st (tok.user_id, tok.session_uuid) = some s)
    (hactive : s.is_active = true)
    (hmatch : s.refresh_token_uuid = tok.token_uuid)
    (huid : s.user_id = tok.user_id)
    (hsuid : s.session_uuid = tok.session_uuid)
    (hu : get_user_by_id db tok.user_id = some user) :
    (auth_refresh db st tok ip ua na nr).outcome =
      .ok ⟨⟨na, tok.user_id, tok.session_uuid⟩, ⟨nr, tok.user_id, tok.session_uuid⟩⟩ ∧
    storeLookup (auth_refresh db st tok ip ua na nr).store (tok.user_id, tok.session_uuid) =
      some { s with access_token_uuid := na, refresh_token_uuid := nr } ∧
    validate_access_token (auth_refresh db st tok ip ua na nr).store
        ⟨na, tok.user_id, tok.session_uuid⟩ =
      .ok { s with access_token_uuid := na, refresh_token_uuid := nr } ∧
    (∀ old : AuthTokenPayload, old.user_id = tok.user_id → old.session_uuid = tok.session_uuid →
      old.token_uuid ≠ na →
      validate_access_token (auth_refresh db st tok ip ua na nr).store old =
        .error (.tokenExpired 401)) ∧
    (∀ (st₀ : SessionStore) (u₀ : Nat) (a b c d e : String),
      session_service_create_session st₀ u₀ a b c d e = .error .pyTypeError) := by
  have huser : user.id = tok.user_id := get_user_by_id_id db tok.user_id user hu
  have hval : validate_refresh_token st tok = .ok s :=
    validate_refresh_token_ok st tok s hs hactive hmatch
  have hrefresh : auth_refresh db st tok ip ua na nr =
      ⟨(update_session st { s with access_token_uuid := na, refresh_token_uuid := nr }).store,
        .ok ⟨⟨na, tok.user_id, tok.session_uuid⟩, ⟨nr, tok.user_id, tok.session_uuid⟩⟩⟩ := by
    unfold auth_refresh
    rw [hval]
    dsimp only
    rw [huid, hu]
    dsimp only [refresh_suspicious_branch_taken, unawaited_coroutine_truthiness,
      Bool.not_true]
    rw [if_neg (by simp)]
    simp [create_access_token, create_refresh_token, huser, hsuid]
  have hstore : storeLookup (auth_refresh db st tok ip ua na nr).store
      (tok.user_id, tok.session_uuid) =
      some { s with access_token_uuid := na, refresh_token_uuid := nr } := by
    rw [hrefresh]
    have h2 := storeLookup_storeInsert_self st
      (({ s with access_token_uuid := na, refresh_token_uuid := nr } :
          AuthSessionInternal).user_id,
        ({ s with access_token_uuid := na, refresh_token_uuid := nr } :
          AuthSessionInternal).session_uuid)
      { s with access_token_uuid := na, refresh_token_uuid := nr }
    show storeLookup (save_session st _).store _ = _
    unfold save_session
    simpa [huid, hsuid] using h2
  refine ⟨by rw [hrefresh], hstore, ?_, ?_, fun _ _ _ _ _ _ _ => rfl⟩
  · exact validate_access_token_ok _ ⟨na, tok.user_id, tok.session_uuid⟩ _ hstore hactive rfl
  · intro old hou hos hot
    have hne : ({ s with access_token_uuid := na, refresh_token_uuid := nr } :
        AuthSessionInternal).access_token_uuid ≠ old.token_uuid := by
      simpa using fun hcontra => hot hcontra.symm
    refine validate_access_token_expired _ old
      { s with access_token_uuid := na, refresh_token_uuid := nr } ?_ hactive hne
    rw [hou, hos]
    exact hstore

/-- C3 witness: the amended theorem applied at a concrete store holding an
active session with matching refresh-token uuid. -/
theorem C3_witness :
    (auth_refresh ⟨[⟨1, "alice", "h"⟩], 2⟩
        [((1, "s1"), ⟨"s1", 1, true, "a0", "r0", "sess", "ip", "ua", 0, 0, 9⟩)]
        ⟨"r0", 1, "s1"⟩ "ip" "ua" "a1" "r1").outcome =
      .ok ⟨⟨"a1", 1, "s1"⟩, ⟨"r1", 1, "s1"⟩⟩ :=
  (C3_amended_refresh_rotates_and_invalidates
    ⟨[⟨1, "alice", "h"⟩], 2⟩
    [((1, "s1"), ⟨"s1", 1, true, "a0", "r0", "sess", "ip", "ua", 0, 0, 9⟩)]
    ⟨"r0", 1, "s1"⟩ ⟨"s1", 1, true, "a0", "r0", "sess", "ip", "ua", 0, 0, 9⟩
    ⟨1, "alice", "h"⟩ "ip" "ua" "a1" "r1"
    rfl rfl rfl rfl rfl rfl).1

/-- C4: every `_write_to_channel` call persists the message to the database
first (the returned message is the row appended to the table, its `id` the
fresh primary key), then issues `xadd` with explicit entry id
`f"{message.id}-0"` — millisecond part equal to the database primary key —
`maxlen = STORAGE_CHANNEL_CACHE_SIZE` and `approximate = True`, and returns the
persisted message.  The final conjunct is the offset-reconciliation link: when
every cached entry id is below the fresh primary key, appending the new entry
keeps the stream sorted and makes the new id the newest stream id. -/
theorem C4_write_to_channel_persists_then_caches (db : ChannelDb)
    (cache_size user_id : Nat) (sender_name target_name channel_name data : String)
    (stream : ChannelStream) :
    (write_to_channel db cache_size user_id sender_name target_name channel_name data).2.2 =
      ⟨db.next_id, user_id, sender_name, target_name, channel_name, data⟩ ∧
    (write_to_channel db cache_size user_id sender_name target_name channel_name data).1.rows =
      db.rows ++
        [(write_to_channel db cache_size user_id sender_name target_name channel_name data).2.2] ∧
    (write_to_channel db cache_size user_id sender_name target_name channel_name data).2.2 ∈
      (write_to_channel db cache_size user_id sender_name target_name channel_name data).1.rows ∧
    (write_to_channel db cache_size user_id sender_name target_name channel_name data).2.1.key =
      get_channel_stream_key user_id channel_name ∧
    (write_to_channel db cache_size user_id sender_name target_name channel_name
        data).2.1.entry_id_ms =
      (write_to_channel db cache_size user_id sender_name target_name channel_name data).2.2.id ∧
    (write_to_channel db cache_size user_id sender_name target_name channel_name data).2.2.id =
      db.next_id ∧
    (write_to_channel db cache_size user_id sender_name target_name channel_name
        data).2.1.entry_id_seq = 0 ∧
    (write_to_channel db cache_size user_id sender_name target_name channel_name data).2.1.maxlen =
      cache_size ∧
    (write_to_channel db cache_size user_id sender_name target_name channel_name
        data).2.1.approximate = true ∧
    ((∀ e ∈ stream, e.1 < db.next_id) → stream.Pairwise (fun a b => a.1 < b.1) →
      (stream ++ [((db.next_id : Int),
          (⟨db.next_id, user_id, sender_name, target_name, channel_name, data⟩ :
            StorageChannelMessage))]).Pairwise
        (fun a b => a.1 < b.1) ∧
      (get_redis_stream_info (stream ++ [((db.next_id : Int),
          (⟨db.next_id, user_id, sender_name, target_name, channel_name, data⟩ :
            StorageChannelMessage))])).2 =
        db.next_id) := by
  refine ⟨rfl, rfl, by simp [write_to_channel], rfl, rfl, rfl, rfl, rfl, rfl, ?_⟩
  intro hlt hsort
  constructor
  · refine List.pairwise_append.mpr ⟨hsort, List.pairwise_singleton _ _, ?_⟩
    intro a ha b hb
    have hb1 : b = ((db.next_id : Int),
        (⟨db.next_id, user_id, sender_name, target_name, channel_name, data⟩ :
          StorageChannelMessage)) := by
      simpa using hb
    rw [hb1]
    exact hlt a ha
  · exact get_redis_stream_info_append_last stream ((db.next_id : Int),
      (⟨db.next_id, user_id, sender_name, target_name, channel_name, data⟩ :
        StorageChannelMessage))

/-- C4 witness: the theorem applied at a concrete database and stream,
discharging the reconciliation hypotheses. -/
theorem C4_witness :
    ((([((1 : Int), (⟨1, 7, "s", "t", "ch", "x"⟩ : StorageChannelMessage))] : ChannelStream) ++
        [((2 : Int), (⟨2, 7, "s", "t", "ch", "y"⟩ : StorageChannelMessage))]).Pairwise
      (fun a b => a.1 < b.1)) ∧
    (get_redis_stream_info
        (([((1 : Int), (⟨1, 7, "s", "t", "ch", "x"⟩ : StorageChannelMessage))] : ChannelStream) ++
          [((2 : Int), (⟨2, 7, "s", "t", "ch", "y"⟩ : StorageChannelMessage))])).2 = 2 :=
  (C4_write_to_channel_persists_then_caches ⟨[⟨1, 7, "s", "t", "ch", "x"⟩], 2⟩ 100 7 "s" "t" "ch"
    "y" [((1 : Int), ⟨1, 7, "s", "t", "ch", "x"⟩)]).2.2.2.2.2.2.2.2.2
    (by decide) (by decide)

/-- C5: registering a username that already exists maps the database
unique-constraint failure to `UserAlreadyExists` with HTTP 409 CONFLICT, leaves
the users table unchanged, and creates no session. -/
theorem C5_register_duplicate_conflict (sha256 : List Nat → List Nat) (db : UsersDb)
    (st : SessionStore) (username password ip ua sname atu rtu : String) (r : UserInternal)
    (hr : r ∈ db.rows) (hname : r.username = username) :
    auth_register sha256 db st username password ip ua sname atu rtu =
      (db, st, .error (.userAlreadyExists 409)) := by
  have hany : db.rows.any (fun x => x.username == username) = true :=
    List.any_eq_true.mpr ⟨r, hr, by simp [hname]⟩
  unfold auth_register create_user user_repository_create
  simp [hany]

/-- C5 witness: the theorem applied at a one-row table already holding the
username. -/
theorem C5_witness :
    auth_register (fun b => b) ⟨[⟨1, "alice", "h"⟩], 2⟩ [] "alice" "pw" "ip" "ua" "sn" "a0" "r0" =
      (⟨[⟨1, "alice", "h"⟩], 2⟩, [], .error (.userAlreadyExists 409)) :=
  C5_register_duplicate_conflict (fun b => b) ⟨[⟨1, "alice", "h"⟩], 2⟩ [] "alice" "pw" "ip" "ua"
    "sn" "a0" "r0" ⟨1, "alice", "h"⟩ (by decide) rfl

/-- C6 counterexample: the claim asserts the `expire` argument equals the
remaining time until `expires_at`.  For a session with `expires_at = 2000`
(epoch seconds) saved at clock time `1000`, the remaining time is `1000`, but
`__save_session` passes `round(expires_at.timestamp()) = 2000`; the key
therefore expires at epoch `1000 + 2000 = 3000`, not at `expires_at`. -/
theorem C6_counterexample_ttl_not_remaining :
    (save_session [] ⟨"s1", 1, true, "a", "r", "n", "ip", "ua", 0, 0, 2000⟩).expire_seconds =
      2000 ∧
    (save_session [] ⟨"s1", 1, true, "a", "r", "n", "ip", "ua", 0, 0, 2000⟩).expire_seconds ≠
      2000 - 1000 ∧
    1000 + (save_session [] ⟨"s1", 1, true, "a", "r", "n", "ip", "ua", 0, 0, 2000⟩).expire_seconds ≠
      (⟨"s1", 1, true, "a", "r", "n", "ip", "ua", 0, 0, 2000⟩ : AuthSessionInternal).expires_at :=
  ⟨rfl, by decide, by decide⟩

/-- C6 (amended): every session record saved to Redis through `__save_session`
(the path taken by `update_session`; `create_session` raises before saving, see
the C3 analysis) stores the full record at the session key and passes
`round(session.expires_at.timestamp())` — the absolute epoch value of
`expires_at`, not the remaining time — as the `expire` TTL, so the key's expiry
deadline `now + TTL` coincides with `expires_at` only when the save happens at
epoch `0`. -/
theorem C6_amended_expire_gets_absolute_timestamp (st : SessionStore)
    (s : AuthSessionInternal) (now : Int) :
    (save_session st s).expire_seconds = s.expires_at ∧
    update_session st s = save_session st s ∧
    storeLookup (save_session st s).store (s.user_id, s.session_uuid) = some s ∧
    (save_session st s).expire_key = (s.user_id, s.session_uuid) ∧
    (now + (save_session st s).expire_seconds = s.expires_at ↔ now = 0) := by
  refine ⟨rfl, rfl, storeLookup_storeInsert_self st (s.user_id, s.session_uuid) s, rfl, ?_⟩
  show now + s.expires_at = s.expires_at ↔ now = 0
  omega

/-- C6 witness: the amended theorem applied at a session expiring at epoch
`2000`, saved at clock time `1000`. -/
theorem C6_witness :
    ((1000 : Int) +
        (save_session [] ⟨"s1", 1, true, "a", "r", "n", "ip", "ua", 0, 0, 2000⟩).expire_seconds =
      (⟨"s1", 1, true, "a", "r", "n", "ip", "ua", 0, 0, 2000⟩ : AuthSessionInternal).expires_at ↔
      (1000 : Int) = 0) :=
  (C6_amended_expire_gets_absolute_timestamp []
    ⟨"s1", 1, true, "a", "r", "n", "ip", "ua", 0, 0, 2000⟩ 1000).2.2.2.2

/-- C8: `_listen_direct` with a pending list pops the first element, reads
`lrange(key, 0, limit)` — list indices `0` through `limit` inclusive of the
remaining list, i.e. up to `limit + 1` further messages, up to `limit + 2` in
total — and deletes the whole key, discarding every message beyond those
returned; on timeout it returns the empty tuple and deletes nothing. -/
theorem C8_listen_direct_overfetch_and_delete (limit : Int) (hlim : 0 ≤ limit)
    (first : StorageDirectMessage) (rest : List StorageDirectMessage) :
    listen_direct [] limit = ([], false) ∧
    listen_direct (first :: rest) limit = (first :: rest.take (limit.toNat + 1), true) ∧
    (listen_direct (first :: rest) limit).1.length ≤ limit.toNat + 2 := by
  have hnotlt : ¬ limit < 0 := not_lt.mpr hlim
  have htn : (limit + 1).toNat = limit.toNat + 1 := by omega
  have hl : lrange_from_zero rest limit = rest.take (limit.toNat + 1) := by
    unfold lrange_from_zero
    rw [if_neg hnotlt, htn]
  refine ⟨rfl, by simp [listen_direct, hl], ?_⟩
  have hlen : (rest.take (limit.toNat + 1)).length ≤ limit.toNat + 1 := by
    simp [List.length_take]
  have hres : (listen_direct (first :: rest) limit).1.length =
      (rest.take (limit.toNat + 1)).length + 1 := by
    simp [listen_direct, hl]
  omega

/-- C8 witness: the theorem applied at `limit = 1` and a three-message backlog. -/
theorem C8_witness :
    listen_direct [⟨1, "a", "b", "u1", "m1"⟩, ⟨1, "a", "b", "u2", "m2"⟩,
        ⟨1, "a", "b", "u3", "m3"⟩, ⟨1, "a", "b", "u4", "m4"⟩] 1 =
      ([⟨1, "a", "b", "u1", "m1"⟩, ⟨1, "a", "b", "u2", "m2"⟩, ⟨1, "a", "b", "u3", "m3"⟩], true) :=
  (C8_listen_direct_overfetch_and_delete 1 (by decide) ⟨1, "a", "b", "u1", "m1"⟩
    [⟨1, "a", "b", "u2", "m2"⟩, ⟨1, "a", "b", "u3", "m3"⟩, ⟨1, "a", "b", "u4", "m4"⟩]).2.1

/-- C10: revoking an existing session is a soft delete — the record remains with
`is_active` set to false and every other field unchanged — after which
`get_session` raises `InactiveSessionHTTPException` (401) rather than
`InvalidSessionHTTPException`; revoking a session key that does not exist
raises `InvalidSessionHTTPException` (401) and changes nothing. -/
theorem C10_soft_delete_visibility (st : SessionStore) (user_id : Nat) (session_uuid : String)
    (s : AuthSessionInternal) (h : storeLookup st (user_id, session_uuid) = some s) :
    (service_revoke_session st user_id session_uuid).2 = .ok () ∧
    storeLookup (service_revoke_session st user_id session_uuid).1 (user_id, session_uuid) =
      some { s with is_active := false } ∧
    service_get_session (service_revoke_session st user_id session_uuid).1 user_id session_uuid =
      .error (.inactiveSession 401) ∧
    (∀ (st₀ : SessionStore) (u₀ : Nat) (v₀ : String), storeLookup st₀ (u₀, v₀) = none →
      service_revoke_session st₀ u₀ v₀ = (st₀, .error (.invalidSession 401))) := by
  have hrev : service_revoke_session st user_id session_uuid =
      (storeInsert st (user_id, session_uuid) { s with is_active := false }, .ok ()) := by
    unfold service_revoke_session revoke_session_by_id delete_session_soft
    rw [h]
    simp
  have hlook : storeLookup (service_revoke_session st user_id session_uuid).1
      (user_id, session_uuid) = some { s with is_active := false } := by
    rw [hrev]
    exact storeLookup_storeInsert_self st (user_id, session_uuid) { s with is_active := false }
  refine ⟨by rw [hrev], hlook, ?_, ?_⟩
  · unfold service_get_session repo_get_session
    rw [hlook]
    simp
  · intro st₀ u₀ v₀ h₀
    unfold service_revoke_session revoke_session_by_id delete_session_soft
    rw [h₀]
    simp

/-- C10 witness: the theorem applied at a store holding one active session. -/
theorem C10_witness :
    service_get_session
      (service_revoke_session
        [((1, "s1"), ⟨"s1", 1, true, "a0", "r0", "sess", "ip", "ua", 0, 0, 9⟩)] 1 "s1").1 1 "s1" =
      .error (.inactiveSession 401) :=
  (C10_soft_delete_visibility
    [((1, "s1"), ⟨"s1", 1, true, "a0", "r0", "sess", "ip", "ua", 0, 0, 9⟩)] 1 "s1"
    ⟨"s1", 1, true, "a0", "r0", "sess", "ip", "ua", 0, 0, 9⟩ rfl).2.2.1

theorem get_redis_stream_info_cons (e : Int × StorageChannelMessage)
    (rest : List (Int × StorageChannelMessage)) (l : Int × StorageChannelMessage)
    (h : (e :: rest).getLast? = some l) :
    get_redis_stream_info (e :: rest) = (e.1, l.1) := by
  unfold get_redis_stream_info
  rw [h]
  rfl

theorem stream_info_bounds (stream : ChannelStream)
    (hpos : ∀ e ∈ stream, 0 < e.1) (hsort : stream.Pairwise (fun a b => a.1 < b.1))
    (hne : stream ≠ []) :
    0 < (get_redis_stream_info stream).1 ∧
    (get_redis_stream_info stream).1 ≤ (get_redis_stream_info stream).2 ∧
    0 < (get_redis_stream_info stream).2 := by
  match stream, hne with
  | e :: rest, _ =>
    cases hgl : (e :: rest).getLast? with
    | none => exact absurd (by simpa using hgl) (List.cons_ne_nil e rest)
    | some l =>
      have hinfo := get_redis_stream_info_cons e rest l hgl
      have hl : l ∈ e :: rest := List.mem_of_mem_getLast? hgl
      rw [hinfo]
      refine ⟨hpos e (List.mem_cons_self e rest), ?_, hpos l hl⟩
      rcases List.mem_cons.mp hl with h1 | h2
      · rw [h1]
      · exact le_of_lt ((List.pairwise_cons.mp hsort).1 l h2)

/-- C2 counterexample: listening on a channel that was never written to — the
only way this system reaches an empty stream, keys being created by `xadd`
alone — does not block waiting for new messages: `redis.xinfo_stream` raises
`ResponseError("no such key")` on the missing key and the exception propagates
out of `_listen_channel`. -/
theorem C2_counterexample_missing_stream_raises :
    listen_channel ⟨[], 1⟩ none 7 "ch" 0 5 = .error .noSuchKey ∧
    listen_channel ⟨[], 1⟩ none 7 "ch" 0 5 ≠ .ok .waitForNew := by
  refine ⟨rfl, ?_⟩
  intro h
  simp [listen_channel] at h

/-- C2 (amended): branch selection of `_listen_channel` and freshness of what
it returns.  On a channel whose stream key does not exist, the call raises
`ResponseError("no such key")` (from `_get_redis_stream_info`'s `xinfo_stream`)
instead of blocking; an existing stream whose `xinfo_stream` reply carries no
entries would block waiting for new messages, but that state is unreachable
here.  For a well-formed existing stream (entry ids positive, strictly
increasing, equal to the cached message ids — the shape `_write_to_channel`
maintains): an `offset_id` at or above the newest cached id blocks waiting for
new messages; an `offset_id` below the oldest cached id reads from the
database — rows of that user and channel with id strictly above `offset_id`,
ordered by id, at most `limit` of them; otherwise it reads from the Redis
stream starting at entry id `offset_id + 1`.  In both fetch branches every
returned message has id strictly above `offset_id`, so a message the caller
already saw is never returned. -/
theorem C2_amended_listen_channel_offset_reconciliation (db : ChannelDb)
    (stream : ChannelStream) (user_id : Nat) (channel_name : String) (offset_id : Int)
    (limit : Nat)
    (hpos : ∀ e ∈ stream, 0 < e.1)
    (hsort : stream.Pairwise (fun a b => a.1 < b.1))
    (hid : ∀ e ∈ stream, e.1 = e.2.id) :
    (get_redis_stream_info_call none = .error .noSuchKey ∧
      listen_channel db none user_id channel_name offset_id limit = .error .noSuchKey) ∧
    (listen_channel db (some []) user_id channel_name offset_id limit = .ok .waitForNew) ∧
    (stream ≠ [] → (get_redis_stream_info stream).2 ≤ offset_id →
      listen_channel db (some stream) user_id channel_name offset_id limit =
        .ok .waitForNew) ∧
    (stream ≠ [] → offset_id < (get_redis_stream_info stream).1 →
      listen_channel db (some stream) user_id channel_name offset_id limit =
        .ok (.fromDb (get_messages db user_id channel_name offset_id limit))) ∧
    (stream ≠ [] → (get_redis_stream_info stream).1 ≤ offset_id →
      offset_id < (get_redis_stream_info stream).2 →
      listen_channel db (some stream) user_id channel_name offset_id limit =
        .ok (.fromRedis (fetch_messages_from_redis stream offset_id limit))) ∧
    (∀ m ∈ get_messages db user_id channel_name offset_id limit,
      m.user_id = user_id ∧ m.channel_name = channel_name ∧ offset_id < m.id) ∧
    (get_messages db user_id channel_name offset_id limit).Sorted (fun a b => a.id ≤ b.id) ∧
    (get_messages db user_id channel_name offset_id limit).length ≤ limit ∧
    (∀ m ∈ fetch_messages_from_redis stream offset_id limit, offset_id < m.id) ∧
    (fetch_messages_from_redis stream offset_id limit).length ≤ limit := by
  refine ⟨⟨rfl, rfl⟩, rfl, ?_, ?_, ?_, ?_, ?_, ?_, ?_, ?_⟩
  · intro hne hle
    have hb := stream_info_bounds stream hpos hsort hne
    have h1 : ¬ ((get_redis_stream_info stream).2 = -1) := by omega
    have h2 : ¬ (offset_id < (get_redis_stream_info stream).1) := by omega
    simp [listen_channel, h1, h2, hle]
  · intro hne hlt
    have hb := stream_info_bounds stream hpos hsort hne
    have h1 : ¬ ((get_redis_stream_info stream).2 = -1) := by omega
    simp [listen_channel, h1, hlt]
  · intro hne hge hlt
    have hb := stream_info_bounds stream hpos hsort hne
    have h1 : ¬ ((get_redis_stream_info stream).2 = -1) := by omega
    have h2 : ¬ (offset_id < (get_redis_stream_info stream).1) := by omega
    have h3 : ¬ ((get_redis_stream_info stream).2 ≤ offset_id) := by omega
    simp [listen_channel, h1, h2, h3]
  · intro m hm
    unfold get_messages at hm
    have hm1 := List.take_subset _ _ hm
    have hm2 := (List.perm_insertionSort _ _).subset hm1
    have hm3 := List.mem_filter.mp hm2
    have hsplit : (m.user_id = user_id ∧ m.channel_name = channel_name) ∧ offset_id < m.id := by
      simpa using hm3.2
    exact ⟨hsplit.1.1, hsplit.1.2, hsplit.2⟩
  · unfold get_messages
    exact List.Pairwise.take (List.sorted_insertionSort _ _)
  · unfold get_messages
    rw [List.length_take]
    exact min_le_left _ _
  · intro m hm
    unfold fetch_messages_from_redis at hm
    have hm1 := List.take_subset _ _ hm
    obtain ⟨e, he, rfl⟩ := List.mem_map.mp hm1
    have hmf := List.mem_filter.mp he
    have hle : offset_id + 1 ≤ e.1 := by simpa using hmf.2
    have heid := hid e hmf.1
    omega
  · unfold fetch_messages_from_redis
    rw [List.length_take]
    exact min_le_left _ _

/-- C2 witness: the theorem applied at a two-entry stream, taking the
fetch-from-Redis branch for an offset strictly between the bounds. -/
theorem C2_witness :
    listen_channel ⟨[], 3⟩
        (some [((1 : Int), (⟨1, 7, "s", "t", "ch", "x"⟩ : StorageChannelMessage)),
          ((2 : Int), (⟨2, 7, "s", "t", "ch", "y"⟩ : StorageChannelMessage))]) 7 "ch" 1 5 =
      .ok (.fromRedis (fetch_messages_from_redis
        [((1 : Int), (⟨1, 7, "s", "t", "ch", "x"⟩ : StorageChannelMessage)),
          ((2 : Int), (⟨2, 7, "s", "t", "ch", "y"⟩ : StorageChannelMessage))] 1 5)) :=
  (C2_amended_listen_channel_offset_reconciliation ⟨[], 3⟩
    [((1 : Int), ⟨1, 7, "s", "t", "ch", "x"⟩), ((2 : Int), ⟨2, 7, "s", "t", "ch", "y"⟩)]
    7 "ch" 1 5 (by decide) (by decide) (by decide)).2.2.2.2.1
    (by decide) (by decide) (by decide)

/-! Decimal rendering: fuel irrelevance, no colon among the digits, and
injectivity through the left inverse `dec_val`. -/

theorem dec_digits_fuel_eq (n : Nat) : ∀ f₁ f₂ : Nat, n ≤ f₁ → n ≤ f₂ →
    dec_digits_fuel f₁ n = dec_digits_fuel f₂ n := by
  induction n using Nat.strong_induction_on with
  | _ n ih =>
    intro f₁ f₂ h₁ h₂
    by_cases hn : n = 0
    · subst hn
      cases f₁ <;> cases f₂ <;> simp [dec_digits_fuel]
    · obtain ⟨g₁, rfl⟩ : ∃ g, f₁ = g + 1 :=
        ⟨f₁ - 1, by omega⟩
      obtain ⟨g₂, rfl⟩ : ∃ g, f₂ = g + 1 :=
        ⟨f₂ - 1, by omega⟩
      have hdiv : n / 10 < n := Nat.div_lt_self (Nat.pos_of_ne_zero hn) (by decide)
      simp only [dec_digits_fuel, hn, if_false]
      rw [ih (n / 10) hdiv g₁ g₂ (by omega) (by omega)]

theorem dec_digits_succ (n : Nat) (hn : n ≠ 0) :
    dec_digits n = dec_digits (n / 10) ++ [dec_digit_char (n % 10)] := by
  obtain ⟨m, rfl⟩ : ∃ m, n = m + 1 := ⟨n - 1, by omega⟩
  show dec_digits_fuel (m + 1) (m + 1) = _
  simp only [dec_digits_fuel, hn, if_false]
  have hlt : (m + 1) / 10 < m + 1 := Nat.div_lt_self (Nat.succ_pos m) (by decide)
  rw [dec_digits_fuel_eq ((m + 1) / 10) m ((m + 1) / 10) (by omega) (le_refl _)]
  rfl

theorem dec_digit_char_toNat (d : Nat) (h : d < 10) : (dec_digit_char d).toNat = 48 + d := by
  interval_cases d <;> decide

theorem dec_digit_char_ne_colon (d : Nat) (h : d < 10) : dec_digit_char d ≠ ':' := by
  interval_cases d <;> decide

theorem dec_digits_colon_free (n : Nat) : ∀ c ∈ dec_digits n, c ≠ ':' := by
  induction n using Nat.strong_induction_on with
  | _ n ih =>
    intro c hc
    by_cases hn : n = 0
    · subst hn
      simp [dec_digits, dec_digits_fuel] at hc
    · rw [dec_digits_succ n hn] at hc
      rcases List.mem_append.mp hc with h1 | h2
      · exact ih (n / 10) (Nat.div_lt_self (Nat.pos_of_ne_zero hn) (by decide)) c h1
      · have hc2 : c = dec_digit_char (n % 10) := by simpa using h2
        rw [hc2]
        exact dec_digit_char_ne_colon _ (Nat.mod_lt _ (by decide))

theorem dec_val_append_digit (l : List Char) (c : Char) :
    dec_val (l ++ [c]) = 10 * dec_val l + (c.toNat - 48) := by
  unfold dec_val
  rw [List.foldl_append]
  rfl

theorem dec_val_dec_digits (n : Nat) : dec_val (dec_digits n) = n := by
  induction n using Nat.strong_induction_on with
  | _ n ih =>
    by_cases hn : n = 0
    · subst hn
      rfl
    · rw [dec_digits_succ n hn, dec_val_append_digit,
        ih (n / 10) (Nat.div_lt_self (Nat.pos_of_ne_zero hn) (by decide)),
        dec_digit_char_toNat _ (Nat.mod_lt _ (by decide))]
      omega

theorem nat_str_injective (m n : Nat) (h : nat_str m = nat_str n) : m = n := by
  have hd := congrArg String.data h
  unfold nat_str at hd
  have hzero : ("0" : String).data = ['0'] := rfl
  by_cases hm : m = 0 <;> by_cases hn : n = 0
  · rw [hm, hn]
  · exfalso
    apply hn
    simp only [hm, if_true, hn, if_false, hzero] at hd
    have hv := dec_val_dec_digits n
    rw [← hd] at hv
    have : dec_val ['0'] = 0 := by decide
    omega
  · exfalso
    apply hm
    simp only [hm, if_false, hn, if_true, hzero] at hd
    have hv := dec_val_dec_digits m
    rw [hd] at hv
    have : dec_val ['0'] = 0 := by decide
    omega
  · simp only [hm, if_false, hn, if_false] at hd
    have hv₁ := dec_val_dec_digits m
    have hv₂ := dec_val_dec_digits n
    have hdd : dec_digits m = dec_digits n := hd
    rw [hdd] at hv₁
    omega

theorem nat_str_colon_free (n : Nat) : ∀ c ∈ (nat_str n).data, c ≠ ':' := by
  unfold nat_str
  by_cases hn : n = 0
  · simp only [hn, if_true]
    intro c hc
    have : c = '0' := by simpa using hc
    rw [this]
    decide
  · simp only [hn, if_false]
    exact dec_digits_colon_free n

/-- Splitting a concatenation at the first colon: when the chunks left of the
colon are colon-free, both the chunks and the remainders coincide. -/
theorem colon_split {a₁ a₂ r₁ r₂ : List Char}
    (h₁ : ∀ c ∈ a₁, c ≠ ':') (h₂ : ∀ c ∈ a₂, c ≠ ':')
    (h : a₁ ++ ':' :: r₁ = a₂ ++ ':' :: r₂) : a₁ = a₂ ∧ r₁ = r₂ := by
  induction a₁ generalizing a₂ with
  | nil =>
    cases a₂ with
    | nil => simpa using h
    | cons b t =>
      exfalso
      simp only [List.nil_append, List.cons_append] at h
      have hb : ':' = b := (List.cons.injEq _ _ _ _).mp h |>.1
      exact h₂ b (List.mem_cons_self b t) hb.symm
  | cons a t ih =>
    cases a₂ with
    | nil =>
      exfalso
      simp only [List.nil_append, List.cons_append] at h
      have ha : a = ':' := (List.cons.injEq _ _ _ _).mp h |>.1
      exact h₁ a (List.mem_cons_self a t) ha
    | cons b t₂ =>
      simp only [List.cons_append] at h
      have hab := (List.cons.injEq _ _ _ _).mp h
      have htail := ih (fun c hc => h₁ c (List.mem_cons_of_mem a hc))
        (fun c hc => h₂ c (List.mem_cons_of_mem b hc)) hab.2
      exact ⟨by rw [hab.1, htail.1], htail.2⟩

/-- The response-key construction is injective on colon-free sender names and
correlation uuids (the user-id digits are always colon-free). -/
theorem get_response_direct_key_inj (u₁ u₂ : Nat) (n₁ n₂ v₁ v₂ : String)
    (hn₁ : colon_free n₁) (hn₂ : colon_free n₂) (hv₁ : colon_free v₁) (hv₂ : colon_free v₂)
    (h : get_response_direct_key u₁ n₁ v₁ = get_response_direct_key u₂ n₂ v₂) :
    u₁ = u₂ ∧ n₁ = n₂ ∧ v₁ = v₂ := by
  have hd := congrArg String.data h
  simp only [get_response_direct_key, get_direct_key, get_user_storage_key,
    String.data_append, List.append_assoc] at hd
  have hd1 : (nat_str u₁).data ++ ((":direct:" : String).data ++ (n₁.data ++
      ((":response:" : String).data ++ v₁.data))) =
      (nat_str u₂).data ++ ((":direct:" : String).data ++ (n₂.data ++
      ((":response:" : String).data ++ v₂.data))) := by
    have := hd
    simpa using this
  simp only [show (":direct:" : String).data = ':' :: ("direct:" : String).data from rfl,
    show (":response:" : String).data = ':' :: ("response:" : String).data from rfl,
    List.cons_append] at hd1
  have hsplit1 := colon_split (nat_str_colon_free u₁) (nat_str_colon_free u₂) hd1
  have hu : u₁ = u₂ := nat_str_injective u₁ u₂ (String.ext hsplit1.1)
  have hd2 : n₁.data ++ ':' :: (("response:" : String).data ++ v₁.data) =
      n₂.data ++ ':' :: (("response:" : String).data ++ v₂.data) := by
    have := hsplit1.2
    simpa using this
  have hsplit2 := colon_split hn₁ hn₂ hd2
  have hn : n₁ = n₂ := String.ext hsplit2.1
  have hv : v₁ = v₂ := String.ext (by simpa using hsplit2.2)
  exact ⟨hu, hn, hv⟩

/-- C7 counterexample: with a colon inside the requester's `target_name`, a
response sent for a different correlation uuid (`"b:response:c"` instead of the
requester's `"c"`) and a different sender name (`"a"` instead of the awaited
`"a:response:b"`) lands on the very key the requester is blocked on, and is
delivered to it — refuting the claim that a response for any other uuid or name
is never delivered. -/
theorem C7_counterexample_colliding_keys :
    wait_for_direct_response
        (send_direct_response [] ⟨1, "a", "t", "w", "d"⟩ "b:response:c")
        ⟨1, "q", "a:response:b", "c", "e"⟩ =
      some ⟨1, "a", "t", "w", "d"⟩ ∧
    ("b:response:c" : String) ≠ ("c" : String) ∧
    ("a" : String) ≠ ("a:response:b" : String) :=
  ⟨by decide, by decide, by decide⟩

/-- C7 (amended): a waiting requester is delivered a just-sent response exactly
when the two sides compute the same Redis list key
`storage:{user_id}:direct:{name}:response:{uuid}`.  Equal
`(user_id, name, uuid)` triples always produce equal keys, and when the names
and uuids involved are colon-free the keys are equal exactly for the equal
triple — but colon-containing names or uuids can make distinct triples collide
(see the counterexample). -/
theorem C7_amended_delivery_by_key_equality (response request : StorageDirectMessage)
    (response_to_message_uuid : String) :
    (wait_for_direct_response (send_direct_response [] response response_to_message_uuid)
        request = some response ↔
      get_response_direct_key request.user_id request.target_name request.uuid =
        get_response_direct_key response.user_id response.sender_name
          response_to_message_uuid) ∧
    ((response.user_id = request.user_id ∧ response.sender_name = request.target_name ∧
        response_to_message_uuid = request.uuid) →
      wait_for_direct_response (send_direct_response [] response response_to_message_uuid)
        request = some response) ∧
    (colon_free request.target_name → colon_free request.uuid →
      colon_free response.sender_name → colon_free response_to_message_uuid →
      (wait_for_direct_response (send_direct_response [] response response_to_message_uuid)
          request = some response ↔
        (response.user_id = request.user_id ∧ response.sender_name = request.target_name ∧
          response_to_message_uuid = request.uuid))) := by
  have hbase : ∀ (k₁ k₂ : String) (v : StorageDirectMessage),
      (blpop_head (rpush [] k₂ v) k₁ = some v ↔ k₁ = k₂) := by
    intro k₁ k₂ v
    by_cases hk : k₂ = k₁
    · simp [blpop_head, rpush, list_at, hk]
    · have hk' : ¬ k₁ = k₂ := fun he => hk he.symm
      simp [blpop_head, rpush, list_at, hk, hk']
  have hfst : wait_for_direct_response
      (send_direct_response [] response response_to_message_uuid) request = some response ↔
      get_response_direct_key request.user_id request.target_name request.uuid =
        get_response_direct_key response.user_id response.sender_name
          response_to_message_uuid := hbase
    (get_response_direct_key request.user_id request.target_name request.uuid)
    (get_response_direct_key response.user_id response.sender_name response_to_message_uuid)
    response
  refine ⟨hfst, ?_, ?_⟩
  · intro ⟨h1, h2, h3⟩
    apply hfst.mpr
    rw [h1, h2, h3]
  · intro cf₁ cf₂ cf₃ cf₄
    rw [hfst]
    constructor
    · intro hkey
      have hinj := get_response_direct_key_inj request.user_id response.user_id
        request.target_name response.sender_name request.uuid response_to_message_uuid
        cf₁ cf₃ cf₂ cf₄ hkey
      exact ⟨hinj.1.symm, hinj.2.1.symm, hinj.2.2.symm⟩
    · intro ⟨h1, h2, h3⟩
      rw [h1, h2, h3]

/-- C7 witness: the amended theorem applied at colon-free names and uuids; the
matching triple is delivered. -/
theorem C7_witness :
    wait_for_direct_response (send_direct_response [] ⟨1, "alpha", "t", "w", "d"⟩ "u1")
        ⟨1, "q", "alpha", "u1", "e"⟩ = some ⟨1, "alpha", "t", "w", "d"⟩ :=
  ((C7_amended_delivery_by_key_equality ⟨1, "alpha", "t", "w", "d"⟩ ⟨1, "q", "alpha", "u1", "e"⟩
    "u1").2.2 (by decide) (by decide) (by decide) (by decide)).mpr ⟨rfl, rfl, rfl⟩

theorem create_user_ok (sha256 : List Nat → List Nat) (db : UsersDb)
    (username password : String) (db' : UsersDb) (r : UserInternal)
    (h : create_user sha256 db username password = some (db', r)) :
    r = ⟨db.next_id, username, hash_password sha256 password⟩ := by
  unfold create_user user_repository_create at h
  by_cases hc : db.rows.any (fun x => x.username == username)
  · simp [hc] at h
  · simp [hc] at h
    exact h.2.symm

/-- C9: password handling is a deterministic unsalted hash.  Any two users
created with the same password — whatever their usernames or the table state —
receive the same stored `password` value, namely
`sha256(password.encode("utf-8")).hexdigest()` with no user-specific input; and
for a username present in the table, `get_by_auth_credentials` (login) succeeds
exactly when the hash of the supplied password equals that user's stored hash. -/
theorem C9_unsalted_hash_and_login (sha256 : List Nat → List Nat) :
    (∀ (db₁ db₂ : UsersDb) (u₁ u₂ password : String) (db₁' db₂' : UsersDb)
      (r₁ r₂ : UserInternal),
      create_user sha256 db₁ u₁ password = some (db₁', r₁) →
      create_user sha256 db₂ u₂ password = some (db₂', r₂) →
      r₁.password = r₂.password ∧ r₁.password = hash_password sha256 password) ∧
    (∀ (db : UsersDb) (username password_raw : String) (r : UserInternal),
      r ∈ db.rows → r.username = username →
      (∀ r' ∈ db.rows, r'.username = username → r' = r) →
      ((∃ u, get_by_auth_credentials sha256 db username password_raw = some u) ↔
        hash_password sha256 password_raw = r.password)) := by
  constructor
  · intro db₁ db₂ u₁ u₂ p db₁' db₂' r₁ r₂ h₁ h₂
    rw [create_user_ok sha256 db₁ u₁ p db₁' r₁ h₁, create_user_ok sha256 db₂ u₂ p db₂' r₂ h₂]
    exact ⟨rfl, rfl⟩
  · intro db username raw r hr hname huniq
    unfold get_by_auth_credentials get_one_by_username_password
    constructor
    · rintro ⟨u, hu⟩
      have hmem := List.mem_of_find?_eq_some hu
      have hp : u.username = username ∧ u.password = hash_password sha256 raw := by
        simpa using List.find?_some hu
      have hur : u = r := huniq u hmem hp.1
      rw [← hur]
      exact hp.2.symm
    · intro hh
      cases hfind : db.rows.find?
          (fun x => x.username == username && x.password == hash_password sha256 raw) with
      | none =>
        exfalso
        have hnone := List.find?_eq_none.mp hfind r hr
        apply hnone
        simp [hname, hh.symm]
      | some u => exact ⟨u, rfl⟩

/-- C9 witness: the login equivalence applied at a one-row table; the stored
hash matches the hash of the supplied password, so login succeeds. -/
theorem C9_witness :
    ∃ u, get_by_auth_credentials (fun l => l)
      ⟨[⟨1, "alice", hash_password (fun l => l) "pw"⟩], 2⟩ "alice" "pw" = some u :=
  ((C9_unsalted_hash_and_login (fun l => l)).2
    ⟨[⟨1, "alice", hash_password (fun l => l) "pw"⟩], 2⟩ "alice" "pw"
    ⟨1, "alice", hash_password (fun l => l) "pw"⟩
    (List.mem_singleton.mpr rfl) rfl
    (fun r' hr' _ => List.mem_singleton.mp hr')).mpr rfl

end SPS
